import Mathlib

/-!
Verification of the timelapser repository: a shallow embedding of the
schedule-window configuration (configuration.py), the windowed recurrence
trigger (scheduler.py), the camera registry poll (cameras.py) and the
Dropbox datastore (datastore.py), together with theorems settling the
claims about them.

Instants are modelled as naive clock seconds counted from an epoch whose
day 0 is a Monday (concrete inputs below use 2018-10-15, a Monday, as the
epoch), so that the Python weekday() (Monday = 0) is day modulo 7, plus an
optional timezone offset carried alongside, mirroring the tzinfo attribute
of a Python datetime.  Times of day are seconds after midnight.
-/

namespace Timelapser

def secPerDay : Nat := 86400

/-- A Python datetime: naive clock seconds since the epoch plus the
optional tzinfo (modelled as an offset; its value is never inspected). -/
structure Instant where
  sec : Nat
  tz : Option Int
deriving DecidableEq

/-- One entry of the datastore list of a configuration dictionary
(configuration.py): the keys it may or may not carry. -/
structure DatastoreDict where
  dstype : Option String
  store_path : Option String
  dropbox_token : Option String
deriving DecidableEq

/-- TimelapseConfig.DATASTORE_TYPES from configuration.py. -/
def DATASTORE_TYPES : List String := ["filesystem", "dropbox"]

/-- The errors raised as TimelapseConfigError in
TimelapseConfig.initialize_from_dict; one constructor per raise site. -/
inductive TimelapseConfigError where
  | missingType
  | invalidType
  | missingStorePath
  | missingDropboxToken
deriving DecidableEq

/-- The per-descriptor validation performed inside initialize_from_dict
(configuration.py lines 138-155), its checks in source order. -/
def validate_datastore (d : DatastoreDict) : Except TimelapseConfigError Unit :=
  match d.dstype with
  | none => .error .missingType
  | some t =>
    if t ∈ DATASTORE_TYPES then
      match d.store_path with
      | none => .error .missingStorePath
      | some _ =>
        if t = "dropbox" then
          match d.dropbox_token with
          | none => .error .missingDropboxToken
          | some _ => .ok ()
        else .ok ()
    else .error .invalidType

/-- The "for datastore in datastores" validation loop: first failing
descriptor raises. -/
def validate_datastores : List DatastoreDict → Except TimelapseConfigError Unit
  | [] => .ok ()
  | d :: rest =>
    match validate_datastore d with
    | .error e => .error e
    | .ok _ => validate_datastores rest

/-- The weekday names accepted by the weekday_map of
initialize_from_dict. -/
inductive DayName where
  | mon | tue | wed | thu | fri | sat | sun
deriving DecidableEq

/-- weekday_map from initialize_from_dict (configuration.py lines
104-112). -/
def weekday_map : DayName → Nat
  | .mon => 0
  | .tue => 1
  | .wed => 2
  | .thu => 3
  | .fri => 4
  | .sat => 5
  | .sun => 6

/-- A since_tod or till_tod entry of a configuration dictionary: hour,
minute and second keys, each optional (time_dict.get with default 0). -/
structure TimeDict where
  hour : Option Nat
  minute : Option Nat
  second : Option Nat
deriving DecidableEq

/-- datetime.time(hour=get(hour,0), minute=get(minute,0),
second=get(second,0)) as seconds after midnight. -/
def TimeDict.toSeconds (t : TimeDict) : Nat :=
  (t.hour.getD 0) * 3600 + (t.minute.getD 0) * 60 + (t.second.getD 0)

/-- A configuration dictionary as consumed by initialize_from_dict: each
of the seven recognised keys may be present or absent.  A single
datastore dict in the source is normalised to a one-element list before
validation, so the datastore value is modelled as a list. -/
structure ConfigDict where
  week_days : Option (List DayName)
  since_tod : Option TimeDict
  till_tod : Option TimeDict
  frequency : Option Nat
  camera_sn : Option String
  keep_on_camera : Option Bool
  datastore : Option (List DatastoreDict)
deriving DecidableEq

/-- A fully constructed TimelapseConfig: every attribute set. -/
structure TimelapseConfig where
  week_days : List Nat
  since_tod : Nat
  till_tod : Nat
  frequency : Nat
  camera_sn : String
  keep_on_camera : Bool
  datastore : List DatastoreDict
deriving DecidableEq

/-- TimelapseConfig.initialize_from_dict: for each key present in the
dictionary the attribute is overwritten (week days mapped through
weekday_map, times of day built from the time dicts), a key absent from
the dictionary leaves the attribute as it was (the KeyError is caught and
the loop continues), and the datastore list is validated, the raised
TimelapseConfigError aborting the construction. -/
def init_from_dict (self : TimelapseConfig) (cd : ConfigDict) :
    Except TimelapseConfigError TimelapseConfig :=
  let wd := match cd.week_days with
    | some ws => ws.map weekday_map
    | none => self.week_days
  let s := match cd.since_tod with
    | some t => t.toSeconds
    | none => self.since_tod
  let e := match cd.till_tod with
    | some t => t.toSeconds
    | none => self.till_tod
  let f := match cd.frequency with
    | some v => v
    | none => self.frequency
  let sn := match cd.camera_sn with
    | some v => v
    | none => self.camera_sn
  let kc := match cd.keep_on_camera with
    | some v => v
    | none => self.keep_on_camera
  match cd.datastore with
  | some ds =>
    match validate_datastores ds with
    | .error err => .error err
    | .ok _ => .ok ⟨wd, s, e, f, sn, kc, ds⟩
  | none => .ok ⟨wd, s, e, f, sn, kc, self.datastore⟩

/-- DEFAULT_TIMELAPSE_CONFIG from configuration.py (every key present;
the default store path is a constant here since only its presence
matters). -/
def DEFAULT_TIMELAPSE_CONFIG : ConfigDict where
  week_days := some [.mon, .tue, .wed, .thu, .fri, .sat, .sun]
  since_tod := some ⟨some 0, some 0, some 0⟩
  till_tod := some ⟨some 23, some 59, some 59⟩
  frequency := some 10
  camera_sn := some ""
  keep_on_camera := some true
  datastore := some [⟨some "filesystem", some "timelapser_store", none⟩]

/-- The attribute-less object before TimelapseConfig.__init__ runs; every
field is immediately overwritten by the default pass since the default
dictionary carries every key. -/
def blank_config : TimelapseConfig := ⟨[], 0, 0, 0, "", true, []⟩

/-- The TimelapseConfig produced by applying the defaults alone. -/
def default_config : TimelapseConfig :=
  ⟨[0, 1, 2, 3, 4, 5, 6], 0, 86399, 10, "", true,
    [⟨some "filesystem", some "timelapser_store", none⟩]⟩

/-- TimelapseConfig.__init__: first initialise from the defaults, then,
when a dictionary was supplied, override from it. -/
def TimelapseConfig.make (config_dict : Option ConfigDict) :
    Except TimelapseConfigError TimelapseConfig :=
  match init_from_dict blank_config DEFAULT_TIMELAPSE_CONFIG with
  | .error err => .error err
  | .ok base =>
    match config_dict with
    | none => .ok base
    | some cd => init_from_dict base cd

/-- The nested time_in_range helper of TimelapseConfig.should_run_now. -/
def time_in_range (start finish now : Nat) : Bool :=
  if start ≤ finish then start ≤ now && now ≤ finish
  else start ≤ now || now ≤ finish

/-- TimelapseConfig.should_run_now with its two early returns: weekday
check first, then the time-of-day range check. -/
def TimelapseConfig.should_run_now (cfg : TimelapseConfig) (time_now : Nat) : Bool :=
  if (time_now / secPerDay) % 7 ∉ cfg.week_days then false
  else if !(time_in_range cfg.since_tod cfg.till_tod (time_now % secPerDay)) then false
  else true

/-- The day-bump of scheduler.py line 52-53: when since_tod < till_tod <
next_time.time(), replace next_time with midnight of the following day;
datetime.combine with a bare datetime.time() drops the tzinfo. -/
def bump_if_past_till (cfg : TimelapseConfig) (t : Instant) : Instant :=
  if cfg.since_tod < cfg.till_tod ∧ cfg.till_tod < t.sec % secPerDay then
    ⟨(t.sec / secPerDay + 1) * secPerDay, none⟩
  else t

/-- The weekday while-loop of scheduler.py line 56-57, which advances the
date one day at a time keeping the time of day: the number of days added
is the least k with weekday(day + k) allowed.  Weekdays repeat with
period 7, so searching the next 7 days is exact: the search returns none
precisely when no day ever satisfies the guard, that is when the source
loop never terminates. -/
def find_weekday_offset (week_days : List Nat) (day : Nat) : Option Nat :=
  (List.range 7).find? (fun k => decide ((day + k) % 7 ∈ week_days))

/-- The tail of get_next_fire_time after the while loop: run the weekday
search from the current date, then combine the resulting date with
since_tod keeping the tzinfo (scheduler.py lines 56-64). -/
def set_weekday_and_since (cfg : TimelapseConfig) (t : Instant) : Option Instant :=
  match find_weekday_offset cfg.week_days (t.sec / secPerDay) with
  | none => none
  | some k => some ⟨(t.sec / secPerDay + k) * secPerDay + cfg.since_tod, t.tz⟩

/-- TimelapseConfigTrigger.get_next_fire_time (scheduler.py lines 35-66).
A missing previous_fire_time is replaced by now (datetimes are always
truthy, so only None triggers the replacement); the candidate is previous
plus the frequency, returned unchanged when should_run_now accepts it,
otherwise the day-bump, the weekday while-loop and the final combine with
since_tod run in order.  The none result marks the case in which the
weekday while-loop of the source never terminates. -/
def get_next_fire_time (cfg : TimelapseConfig) (previous_fire_time : Option Instant)
    (now : Instant) : Option Instant :=
  let prev := previous_fire_time.getD now
  let next_time : Instant := ⟨prev.sec + cfg.frequency, prev.tz⟩
  if cfg.should_run_now next_time.sec then some next_time
  else set_weekday_and_since cfg (bump_if_past_till cfg next_time)

/-! ### The camera registry poll (cameras.py) -/

/-- A constructed CameraDevice, reduced to the fields the poll logic
reads. -/
structure CameraDevice where
  name : String
  address : String
deriving DecidableEq

/-- The exceptions a CameraDevice construction can raise through
ThreadsafeCameraObject.init: CameraDeviceBusy (gphoto code -53) or
CameraDeviceError (code -2). -/
inductive CameraInitErr where
  | busy
  | fault
deriving DecidableEq

/-- The exceptions that escape CameraDevice.get_available_cameras. -/
inductive PollErr where
  | enumerationFailed
  | deviceFault
deriving DecidableEq

/-- camera_device_cache lookup by address. -/
def cache_lookup (cache : List (String × CameraDevice)) (addr : String) :
    Option CameraDevice :=
  (cache.find? (fun p => p.1 == addr)).map Prod.snd

/-- camera_device_cache.pop(address). -/
def cache_pop (cache : List (String × CameraDevice)) (addr : String) :
    List (String × CameraDevice) :=
  cache.filter (fun p => !(p.1 == addr))

/-- The body of the for-loop of get_available_cameras (cameras.py lines
109-131): consult the cache, drop a cached entry whose name changed,
construct a CameraDevice for an unknown address — a CameraDeviceBusy is
caught and the device skipped, any other error propagates — and collect
the devices in order. -/
def get_available_cameras_go (mk : String → String → Except CameraInitErr CameraDevice) :
    List (String × String) → List (String × CameraDevice) → List CameraDevice →
    Except PollErr (List CameraDevice)
  | [], _, acc => .ok acc.reverse
  | (camera_name, address) :: rest, cache, acc =>
    let cached0 := cache_lookup cache address
    let cached := match cached0 with
      | some cam => if cam.name ≠ camera_name then none else some cam
      | none => none
    let cache1 := match cached0 with
      | some cam => if cam.name ≠ camera_name then cache_pop cache address else cache
      | none => cache
    match cached with
    | some cam => get_available_cameras_go mk rest cache1 (cam :: acc)
    | none =>
      match mk camera_name address with
      | .error .busy => get_available_cameras_go mk rest cache1 acc
      | .error .fault => .error .deviceFault
      | .ok cam => get_available_cameras_go mk rest ((address, cam) :: cache1) (cam :: acc)

/-- CameraDevice.get_available_cameras: the raw gphoto2 enumeration is
not wrapped in any try block, so its failure propagates; otherwise the
per-device loop above runs on the enumerated (name, address) pairs. -/
def get_available_cameras (raw : Except Unit (List (String × String)))
    (mk : String → String → Except CameraInitErr CameraDevice)
    (cache : List (String × CameraDevice)) : Except PollErr (List CameraDevice) :=
  match raw with
  | .error _ => .error .enumerationFailed
  | .ok lst => get_available_cameras_go mk lst cache []

/-! ### The Dropbox datastore (datastore.py) -/

/-- The exceptions that escape DropboxDataStore.store_file: the OSError
of the open call when the staged file is missing, or the DataSaveError
raised when the upload fails. -/
inductive StoreFileErr where
  | ioError
  | dataSaveError
deriving DecidableEq

/-- DropboxDataStore.store_file (datastore.py lines 93-114) over a local
filesystem modelled as the list of existing file names: open the staged
file, attempt the upload (its outcome supplied as a parameter), raise
DataSaveError on failure, and only after a successful upload remove the
original when remove_original is set.  The second component is the local
filesystem after the call. -/
def dropbox_store_file (upload : Except Unit Unit) (remove_original : Bool)
    (fs : List String) (file : String) : Except StoreFileErr Unit × List String :=
  if file ∈ fs then
    match upload with
    | .error _ => (.error .dataSaveError, fs)
    | .ok _ => (.ok (), if remove_original then fs.erase file else fs)
  else (.error .ioError, fs)

/-! ### Concrete configurations used by the theorems.  Day 0 of the epoch
is Monday 2018-10-15, so day 1 is Tuesday 2018-10-16, matching the dates
of test_scheduler.py. -/

/-- The wrap window of the tests: since 22:00:00, till 10:30:00, weekdays
Tuesday to Thursday, frequency 10 seconds. -/
def wrap_window_config : TimelapseConfig := ⟨[1, 2, 3], 79200, 37800, 10, "", true, []⟩

/-- The non-wrap window of the tests: since 10:30:00, till 22:00:00,
weekdays Tuesday to Thursday, frequency 10 seconds. -/
def nonwrap_window_config : TimelapseConfig := ⟨[1, 2, 3], 37800, 79200, 10, "", true, []⟩

/-- A degenerate window with since equal to till (10:00:00), Tuesday
only. -/
def degenerate_window_config : TimelapseConfig := ⟨[1], 36000, 36000, 10, "", true, []⟩

/-- A degenerate window with since equal to till (10:00:00), weekdays
Tuesday to Thursday. -/
def degenerate_window_config2 : TimelapseConfig := ⟨[1, 2, 3], 36000, 36000, 10, "", true, []⟩

/-- A window whose allowed weekday set is empty. -/
def empty_weekdays_config : TimelapseConfig := ⟨[], 37800, 79200, 10, "", true, []⟩

/-- A configuration dictionary carrying none of the recognised keys. -/
def empty_config_dict : ConfigDict := ⟨none, none, none, none, none, none, none⟩

/-- The property of a datastore descriptor that the load-time validation
rejects: missing type, unknown type, missing store path, or type dropbox
without a token. -/
def datastore_invalid (d : DatastoreDict) : Prop :=
  d.dstype = none ∨
    (∃ t, d.dstype = some t ∧ t ∉ DATASTORE_TYPES) ∨
    d.store_path = none ∨
    (d.dstype = some "dropbox" ∧ d.dropbox_token = none)

/-- A device constructor that always succeeds. -/
def mk_always_ok : String → String → Except CameraInitErr CameraDevice :=
  fun n a => .ok ⟨n, a⟩

/-- A device constructor for which the device on the first address is
busy and every other device is fine. -/
def mk_first_busy : String → String → Except CameraInitErr CameraDevice :=
  fun n a => if a = "usb-001" then .error .busy else .ok ⟨n, a⟩

/-! ### Helper lemmas -/

theorem should_run_now_eq_true_iff (cfg : TimelapseConfig) (t : Nat) :
    cfg.should_run_now t = true ↔
      ((t / secPerDay) % 7 ∈ cfg.week_days ∧
        time_in_range cfg.since_tod cfg.till_tod (t % secPerDay) = true) := by
  unfold TimelapseConfig.should_run_now
  by_cases h1 : (t / secPerDay) % 7 ∈ cfg.week_days <;>
    by_cases h2 : time_in_range cfg.since_tod cfg.till_tod (t % secPerDay) = true <;>
      simp_all

theorem find_weekday_offset_mem (wd : List Nat) (d k : Nat)
    (h : find_weekday_offset wd d = some k) : (d + k) % 7 ∈ wd := by
  have hp := List.find?_some h
  exact of_decide_eq_true hp

theorem find_weekday_offset_total (wd : List Nat) (d w : Nat) (hw : w ∈ wd) (h7 : w < 7) :
    ∃ k, find_weekday_offset wd d = some k := by
  rcases hfind : find_weekday_offset wd d with _ | k
  · exfalso
    have hall := List.find?_eq_none.mp hfind ((w + 7 - d % 7) % 7)
    have hk : (w + 7 - d % 7) % 7 ∈ List.range 7 := by
      have : (w + 7 - d % 7) % 7 < 7 := by omega
      simpa [List.mem_range] using this
    have hmod : (d + (w + 7 - d % 7) % 7) % 7 = w := by omega
    have := hall hk
    rw [hmod] at this
    simp [hw] at this
  · exact ⟨k, rfl⟩

theorem set_weekday_spec (cfg : TimelapseConfig) (t : Instant) (r : Instant)
    (h : set_weekday_and_since cfg t = some r) :
    ∃ k, find_weekday_offset cfg.week_days (t.sec / secPerDay) = some k ∧
      r.sec = (t.sec / secPerDay + k) * secPerDay + cfg.since_tod ∧ r.tz = t.tz := by
  unfold set_weekday_and_since at h
  rcases hf : find_weekday_offset cfg.week_days (t.sec / secPerDay) with _ | k <;>
    rw [hf] at h
  · cases h
  · injection h with h
    subst h
    exact ⟨k, rfl, rfl, rfl⟩

theorem set_weekday_total (cfg : TimelapseConfig) (t : Instant)
    (h : ∃ w, w ∈ cfg.week_days ∧ w < 7) :
    ∃ r, set_weekday_and_since cfg t = some r := by
  obtain ⟨w, hw, h7⟩ := h
  obtain ⟨k, hk⟩ := find_weekday_offset_total cfg.week_days (t.sec / secPerDay) w hw h7
  exact ⟨_, by rw [set_weekday_and_since, hk]⟩

/-! ### The claims -/

/-- Claim C5: should_run_now returns true exactly when the weekday of the
instant is in week_days and its time of day lies in the window — the
single inclusive interval from since to till when since is at most till,
and the midnight-wrapping inclusive union when since exceeds till. -/
theorem should_run_now_correct (cfg : TimelapseConfig) (t : Nat) :
    cfg.should_run_now t = true ↔
      ((t / secPerDay) % 7 ∈ cfg.week_days ∧
        (if cfg.since_tod ≤ cfg.till_tod
          then cfg.since_tod ≤ t % secPerDay ∧ t % secPerDay ≤ cfg.till_tod
          else cfg.since_tod ≤ t % secPerDay ∨ t % secPerDay ≤ cfg.till_tod)) := by
  rw [should_run_now_eq_true_iff]
  unfold time_in_range
  by_cases h : cfg.since_tod ≤ cfg.till_tod <;> simp [h]

/-- Claim C1 counterexample: in the wrap window since 22:00, till 10:30,
weekdays Tuesday to Thursday, the previous fire Tuesday 2018-10-16
10:30:00 is itself in window, yet get_next_fire_time does not return
previous plus the 10-second interval (it returns Tuesday 22:00:00, as the
test suite of the repository asserts). -/
theorem claim1_counterexample :
    wrap_window_config.should_run_now (124200 : Nat) = true ∧
    get_next_fire_time wrap_window_config (some ⟨124200, none⟩) ⟨0, none⟩ ≠
      some ⟨124200 + wrap_window_config.frequency, none⟩ := by decide

/-- Claim C1 (amended): whenever the candidate previous plus interval is
itself in window, get_next_fire_time returns exactly that candidate, an
instant in window; a previous fire exactly at till whose candidate leaves
the window instead moves to the next window opening. -/
theorem next_fire_in_window_advances_by_interval (cfg : TimelapseConfig) (p now : Instant)
    (h : cfg.should_run_now (p.sec + cfg.frequency) = true) :
    get_next_fire_time cfg (some p) now = some ⟨p.sec + cfg.frequency, p.tz⟩ ∧
      cfg.should_run_now (p.sec + cfg.frequency) = true := by
  refine ⟨?_, h⟩
  simp [get_next_fire_time, h]

theorem next_fire_in_window_advances_by_interval_witness :
    wrap_window_config.should_run_now (169200 + wrap_window_config.frequency) = true ∧
    get_next_fire_time wrap_window_config (some ⟨169200, none⟩) ⟨0, none⟩ =
      some ⟨169200 + wrap_window_config.frequency, none⟩ :=
  ⟨by decide,
    (next_fire_in_window_advances_by_interval wrap_window_config ⟨169200, none⟩ ⟨0, none⟩
      (by decide)).1⟩

/-- Claim C2: the timezone is NOT preserved in the non-wrap past-till
day-bump branch.  For the non-wrap window since 10:30, till 22:00,
weekdays Tuesday to Thursday, a previous fire Tuesday 2018-10-16 22:00:00
carrying an offset yields Wednesday 10:30:00 with no offset at all,
because the day-bump combines the advanced date with a bare
datetime.time().  The tzinfo-preservation test of the repository asserts
the offset is kept on exactly this input, so the code contradicts its own
test. -/
theorem tz_dropped_in_day_bump_branch :
    (⟨165600, some 60⟩ : Instant).tz = some 60 ∧
    (get_next_fire_time nonwrap_window_config (some ⟨165600, some 60⟩) ⟨0, none⟩).map
      Instant.tz = some none := by decide

/-- Claim C3 counterexample: with the degenerate window since = till =
10:00:00 and Tuesday allowed, the previous fire Tuesday 10:00:30 yields
Tuesday 10:00:00, strictly before the previous fire — the trigger
regresses. -/
theorem claim3_counterexample :
    get_next_fire_time degenerate_window_config (some ⟨122430, none⟩) ⟨0, none⟩ =
      some ⟨122400, none⟩ ∧ (122400 : Nat) < 122430 := by decide

/-- Claim C4 counterexample: with since = till = 10:00:00 (a non-wrapping
window) and the candidate Tuesday 10:30:10 falling strictly after till,
the returned instant still lies on the candidate date (day 1) — the date
is not advanced, because the source guard requires since strictly below
till. -/
theorem claim4_counterexample :
    degenerate_window_config2.since_tod ≤ degenerate_window_config2.till_tod ∧
    degenerate_window_config2.till_tod <
      (124200 + degenerate_window_config2.frequency) % secPerDay ∧
    (124200 + degenerate_window_config2.frequency) / secPerDay = 1 ∧
    (get_next_fire_time degenerate_window_config2 (some ⟨124200, none⟩) ⟨0, none⟩).map
      (fun r => r.sec / secPerDay) = some 1 := by decide

/-- Claim C6 counterexample: with an empty allowed-weekday set the
weekday search finds no allowed day (weekdays repeat with period 7, so
the 7-day search is exhaustive) and get_next_fire_time yields no instant:
the while loop of the source never terminates, so the function is not
total. -/
theorem claim6_counterexample :
    get_next_fire_time empty_weekdays_config (some ⟨0, none⟩) ⟨0, none⟩ = none := by decide

/-- Claim C6 (amended): get_next_fire_time terminates and returns an
instant for every previous/now pair whenever allowed_weekdays contains at
least one integer 0-6; with an empty set the day-by-day search never
reaches an allowed weekday. -/
theorem next_fire_total (cfg : TimelapseConfig) (prev : Option Instant) (now : Instant)
    (h : ∃ w, w ∈ cfg.week_days ∧ w < 7) :
    ∃ r, get_next_fire_time cfg prev now = some r := by
  rw [get_next_fire_time]
  by_cases hrun : cfg.should_run_now ((prev.getD now).sec + cfg.frequency) = true
  · exact ⟨_, if_pos hrun⟩
  · rw [if_neg hrun]
    exact set_weekday_total _ _ h

theorem next_fire_total_witness :
    (∃ w, w ∈ wrap_window_config.week_days ∧ w < 7) ∧
    ∃ r, get_next_fire_time wrap_window_config none ⟨0, none⟩ = some r :=
  ⟨⟨1, by decide, by decide⟩,
    next_fire_total wrap_window_config none ⟨0, none⟩ ⟨1, by decide, by decide⟩⟩

/-- Claim C3 (amended): for a positive interval and a window whose since
and till times of day differ, every instant get_next_fire_time returns is
strictly after previous_fire_time; with since equal to till the trigger
can return an instant at or before the previous fire. -/
theorem next_fire_strictly_after (cfg : TimelapseConfig) (p now r : Instant)
    (hfreq : 1 ≤ cfg.frequency) (hne : cfg.since_tod ≠ cfg.till_tod)
    (h : get_next_fire_time cfg (some p) now = some r) :
    p.sec < r.sec := by
  rw [get_next_fire_time] at h
  simp only [Option.getD_some] at h
  by_cases hrun : cfg.should_run_now (p.sec + cfg.frequency) = true
  · rw [if_pos hrun] at h
    injection h with h
    subst h
    show p.sec < p.sec + cfg.frequency
    omega
  · rw [if_neg hrun] at h
    obtain ⟨k, hfind, hrsec, hrtz⟩ := set_weekday_spec _ _ _ h
    have hmem := find_weekday_offset_mem _ _ _ hfind
    by_cases hbump :
        cfg.since_tod < cfg.till_tod ∧ cfg.till_tod < (p.sec + cfg.frequency) % secPerDay
    · have hB : bump_if_past_till cfg ⟨p.sec + cfg.frequency, p.tz⟩ =
          ⟨((p.sec + cfg.frequency) / secPerDay + 1) * secPerDay, none⟩ := by
        rw [bump_if_past_till, if_pos hbump]
      rw [hB] at hrsec
      have hBsec : (⟨((p.sec + cfg.frequency) / secPerDay + 1) * secPerDay, none⟩ :
          Instant).sec = ((p.sec + cfg.frequency) / secPerDay + 1) * secPerDay := rfl
      rw [hBsec] at hrsec
      rw [Nat.mul_div_cancel _ (by norm_num [secPerDay] : 0 < secPerDay)] at hrsec
      simp only [secPerDay] at hrsec ⊢
      omega
    · have hB : bump_if_past_till cfg ⟨p.sec + cfg.frequency, p.tz⟩ =
          ⟨p.sec + cfg.frequency, p.tz⟩ := by
        rw [bump_if_past_till, if_neg hbump]
      rw [hB] at hrsec hmem
      have hBsec : (⟨p.sec + cfg.frequency, p.tz⟩ : Instant).sec =
          p.sec + cfg.frequency := rfl
      rw [hBsec] at hrsec hmem
      rcases Nat.eq_zero_or_pos k with hk0 | hkpos
      · subst hk0
        have hmem0 : ((p.sec + cfg.frequency) / secPerDay + 0) % 7 ∈ cfg.week_days := hmem
        rw [Nat.add_zero] at hmem0
        have hrange : ¬ (time_in_range cfg.since_tod cfg.till_tod
            ((p.sec + cfg.frequency) % secPerDay) = true) := by
          intro hr
          exact hrun ((should_run_now_eq_true_iff _ _).mpr ⟨hmem0, hr⟩)
        rw [time_in_range] at hrange
        by_cases hle : cfg.since_tod ≤ cfg.till_tod
        · rw [if_pos hle] at hrange
          simp only [Bool.and_eq_true, decide_eq_true_eq, not_and, not_le] at hrange
          simp only [secPerDay] at hrsec hbump hrange ⊢
          omega
        · rw [if_neg hle] at hrange
          simp only [Bool.or_eq_true, decide_eq_true_eq, not_or, not_le] at hrange
          simp only [secPerDay] at hrsec hrange ⊢
          omega
      · simp only [secPerDay] at hrsec ⊢
        omega

/-- Claim C4 (amended): for a window with since strictly before till,
whenever the candidate previous plus interval has its time of day
strictly after till, get_next_fire_time bumps the date by at least one
day past the candidate date before the weekday search and sets the time
of day to since, landing on an allowed weekday; with since equal to till
the bump does not happen.  In particular next_fire(2018-10-16T22:00:00)
is 2018-10-17T10:30:00 for the test window (the witness below). -/
theorem day_bump_on_past_till (cfg : TimelapseConfig) (p now r : Instant)
    (h1 : cfg.since_tod < cfg.till_tod)
    (h2 : cfg.till_tod < (p.sec + cfg.frequency) % secPerDay)
    (hs : cfg.since_tod < secPerDay)
    (h : get_next_fire_time cfg (some p) now = some r) :
    r.sec % secPerDay = cfg.since_tod ∧
    (p.sec + cfg.frequency) / secPerDay + 1 ≤ r.sec / secPerDay ∧
    (r.sec / secPerDay) % 7 ∈ cfg.week_days := by
  have hrun : ¬ (cfg.should_run_now (p.sec + cfg.frequency) = true) := by
    intro hsr
    obtain ⟨-, hr⟩ := (should_run_now_eq_true_iff _ _).mp hsr
    rw [time_in_range, if_pos (le_of_lt h1)] at hr
    simp only [Bool.and_eq_true, decide_eq_true_eq] at hr
    omega
  rw [get_next_fire_time] at h
  simp only [Option.getD_some] at h
  rw [if_neg hrun] at h
  obtain ⟨k, hfind, hrsec, hrtz⟩ := set_weekday_spec _ _ _ h
  have hmem := find_weekday_offset_mem _ _ _ hfind
  have hB : bump_if_past_till cfg ⟨p.sec + cfg.frequency, p.tz⟩ =
      ⟨((p.sec + cfg.frequency) / secPerDay + 1) * secPerDay, none⟩ := by
    rw [bump_if_past_till, if_pos ⟨h1, h2⟩]
  rw [hB] at hrsec hmem hfind
  have hBsec : (⟨((p.sec + cfg.frequency) / secPerDay + 1) * secPerDay, none⟩ :
      Instant).sec = ((p.sec + cfg.frequency) / secPerDay + 1) * secPerDay := rfl
  rw [hBsec] at hrsec hmem
  rw [Nat.mul_div_cancel _ (by norm_num [secPerDay] : 0 < secPerDay)] at hrsec hmem
  have hd : r.sec / secPerDay = (p.sec + cfg.frequency) / secPerDay + 1 + k := by
    simp only [secPerDay] at hrsec hs ⊢
    omega
  refine ⟨?_, ?_, ?_⟩
  · simp only [secPerDay] at hrsec hs ⊢
    omega
  · simp only [secPerDay] at hrsec hd ⊢
    omega
  · rw [hd]
    exact hmem

theorem day_bump_on_past_till_witness :
    nonwrap_window_config.since_tod < nonwrap_window_config.till_tod ∧
    nonwrap_window_config.till_tod <
      (165600 + nonwrap_window_config.frequency) % secPerDay ∧
    nonwrap_window_config.since_tod < secPerDay ∧
    get_next_fire_time nonwrap_window_config (some ⟨165600, none⟩) ⟨0, none⟩ =
      some ⟨210600, none⟩ ∧
    ((⟨210600, none⟩ : Instant).sec % secPerDay = nonwrap_window_config.since_tod ∧
      (165600 + nonwrap_window_config.frequency) / secPerDay + 1 ≤
        (⟨210600, none⟩ : Instant).sec / secPerDay ∧
      ((⟨210600, none⟩ : Instant).sec / secPerDay) % 7 ∈ nonwrap_window_config.week_days) :=
  ⟨by decide, by decide, by decide, by decide,
    day_bump_on_past_till nonwrap_window_config ⟨165600, none⟩ ⟨0, none⟩ ⟨210600, none⟩
      (by decide) (by decide) (by decide) (by decide)⟩

theorem next_fire_strictly_after_witness :
    1 ≤ wrap_window_config.frequency ∧
    wrap_window_config.since_tod ≠ wrap_window_config.till_tod ∧
    get_next_fire_time wrap_window_config (some ⟨126000, none⟩) ⟨0, none⟩ =
      some ⟨165600, none⟩ ∧
    (⟨126000, none⟩ : Instant).sec < (⟨165600, none⟩ : Instant).sec :=
  ⟨by decide, by decide, by decide,
    next_fire_strictly_after wrap_window_config ⟨126000, none⟩ ⟨0, none⟩ ⟨165600, none⟩
      (by decide) (by decide) (by decide)⟩

theorem validate_datastore_error_iff (d : DatastoreDict) :
    (∃ e, validate_datastore d = .error e) ↔ datastore_invalid d := by
  obtain ⟨ty, sp, tok⟩ := d
  rcases ty with _ | t
  · simp [validate_datastore, datastore_invalid]
  · by_cases ht : t ∈ DATASTORE_TYPES
    · rcases sp with _ | pth
      · simp [validate_datastore, datastore_invalid, ht]
      · by_cases hd : t = "dropbox"
        · subst hd
          rcases tok with _ | tk <;> simp [validate_datastore, datastore_invalid, ht]
        · simp [validate_datastore, datastore_invalid, ht, hd]
    · simp [validate_datastore, datastore_invalid, ht]

theorem validate_datastores_error_iff (l : List DatastoreDict) :
    (∃ e, validate_datastores l = .error e) ↔ ∃ d ∈ l, datastore_invalid d := by
  induction l with
  | nil => simp [validate_datastores]
  | cons d rest ih =>
    have hstep : validate_datastores (d :: rest) =
        match validate_datastore d with
        | .error e => .error e
        | .ok _ => validate_datastores rest := rfl
    rcases hv : validate_datastore d with e | u
    · rw [hstep, hv]
      constructor
      · intro _
        exact ⟨d, List.mem_cons_self d rest, (validate_datastore_error_iff d).mp ⟨e, hv⟩⟩
      · intro _
        exact ⟨e, rfl⟩
    · rw [hstep, hv, ih]
      constructor
      · rintro ⟨d', hd', hinv⟩
        exact ⟨d', List.mem_cons_of_mem d hd', hinv⟩
      · rintro ⟨d', hd', hinv⟩
        rcases List.mem_cons.mp hd' with rfl | hmem
        · exfalso
          obtain ⟨e, he⟩ := (validate_datastore_error_iff d').mpr hinv
          rw [hv] at he
          cases he
        · exact ⟨d', hmem, hinv⟩

/-- Claim C7: constructing a TimelapseConfig from a configuration
dictionary raises TimelapseConfigError exactly when some datastore
descriptor in the dictionary lacks a type, has a type outside filesystem
and dropbox, lacks a store path, or has type dropbox without a dropbox
token; the validation runs inside initialize_from_dict and therefore at
load time, before any scheduling sees the configuration. -/
theorem make_raises_iff_bad_datastore (cd : ConfigDict) :
    (∃ e, TimelapseConfig.make (some cd) = .error e) ↔
      ∃ d ∈ cd.datastore.getD [], datastore_invalid d := by
  have hmk : TimelapseConfig.make (some cd) = init_from_dict default_config cd := rfl
  rw [hmk]
  simp only [init_from_dict]
  rcases hds : cd.datastore with _ | ds
  · simp
  · simp only [Option.getD_some]
    rcases hv : validate_datastores ds with e | u
    · simp only
      constructor
      · intro _
        exact (validate_datastores_error_iff ds).mp ⟨e, hv⟩
      · intro _
        exact ⟨e, rfl⟩
    · simp only
      constructor
      · rintro ⟨e, he⟩
        cases he
      · intro hbad
        obtain ⟨e, he⟩ := (validate_datastores_error_iff ds).mpr hbad
        rw [hv] at he
        cases he

/-- Claim C10: every successfully constructed TimelapseConfig has every
attribute defined (structurally, in this model), the defaults being
applied first and then selectively overridden: a key absent from the
supplied dictionary keeps its default — every weekday allowed, window
00:00:00 to 23:59:59, frequency 10, empty camera serial, keep_on_camera
true, the filesystem datastore. -/
theorem config_defaults_kept (cd : ConfigDict) (cfg : TimelapseConfig)
    (h : TimelapseConfig.make (some cd) = .ok cfg) :
    (cd.week_days = none → cfg.week_days = [0, 1, 2, 3, 4, 5, 6]) ∧
    (cd.since_tod = none → cfg.since_tod = 0) ∧
    (cd.till_tod = none → cfg.till_tod = 86399) ∧
    (cd.frequency = none → cfg.frequency = 10) ∧
    (cd.camera_sn = none → cfg.camera_sn = "") ∧
    (cd.keep_on_camera = none → cfg.keep_on_camera = true) ∧
    (cd.datastore = none → cfg.datastore = default_config.datastore) := by
  have h' : init_from_dict default_config cd = .ok cfg := h
  simp only [init_from_dict] at h'
  split at h'
  · rename_i ds hds
    split at h'
    · cases h'
    · injection h' with h'
      subst h'
      refine ⟨?_, ?_, ?_, ?_, ?_, ?_, ?_⟩ <;> intro hx
      · simp [hx, default_config]
      · simp [hx, default_config]
      · simp [hx, default_config]
      · simp [hx, default_config]
      · simp [hx, default_config]
      · simp [hx, default_config]
      · rw [hx] at hds
        cases hds
  · rename_i hds
    injection h' with h'
    subst h'
    refine ⟨?_, ?_, ?_, ?_, ?_, ?_, ?_⟩ <;> intro hx <;> simp [hx, default_config]

theorem config_defaults_kept_witness :
    TimelapseConfig.make (some empty_config_dict) = .ok default_config ∧
    default_config.week_days = [0, 1, 2, 3, 4, 5, 6] ∧
    default_config.since_tod = 0 ∧
    default_config.till_tod = 86399 ∧
    default_config.frequency = 10 ∧
    default_config.keep_on_camera = true := by
  have h : TimelapseConfig.make (some empty_config_dict) = .ok default_config := rfl
  have hc := config_defaults_kept empty_config_dict default_config h
  exact ⟨h, hc.1 rfl, hc.2.1 rfl, hc.2.2.1 rfl, hc.2.2.2.1 rfl, hc.2.2.2.2.2.1 rfl⟩

/-- Claim C8 counterexample: a failure of the raw enumeration is not
turned into an empty camera list — get_available_cameras propagates it,
even with a constructor that would succeed for every device. -/
theorem claim8_counterexample :
    get_available_cameras (.error ()) mk_always_ok [] = .error .enumerationFailed ∧
    (Except.error PollErr.enumerationFailed : Except PollErr (List CameraDevice)) ≠
      .ok [] := by
  refine ⟨rfl, ?_⟩
  intro hcontra
  cases hcontra

/-- Claim C8 (amended): a failure of the raw enumeration propagates out
of get_available_cameras (it is not treated as an empty set); a
CameraDeviceBusy failure while constructing one device skips exactly that
device and the poll continues unchanged over the remaining devices; a
CameraDeviceError for one device aborts the whole poll. -/
theorem poll_error_isolation (mk : String → String → Except CameraInitErr CameraDevice)
    (camera_name address : String) (rest : List (String × String))
    (cache : List (String × CameraDevice))
    (hc : cache_lookup cache address = none) :
    (∀ u : Unit, get_available_cameras (.error u) mk cache = .error .enumerationFailed) ∧
    (mk camera_name address = .error .busy →
      get_available_cameras (.ok ((camera_name, address) :: rest)) mk cache =
        get_available_cameras (.ok rest) mk cache) ∧
    (mk camera_name address = .error .fault →
      get_available_cameras (.ok ((camera_name, address) :: rest)) mk cache =
        .error .deviceFault) := by
  refine ⟨fun u => rfl, ?_, ?_⟩
  · intro hbusy
    show get_available_cameras_go mk ((camera_name, address) :: rest) cache [] =
      get_available_cameras_go mk rest cache []
    rw [get_available_cameras_go]
    simp only [hc, hbusy]
  · intro hfault
    show get_available_cameras_go mk ((camera_name, address) :: rest) cache [] =
      .error .deviceFault
    rw [get_available_cameras_go]
    simp only [hc, hfault]

theorem poll_error_isolation_witness :
    cache_lookup [] "usb-001" = none ∧
    ((∀ u : Unit,
        get_available_cameras (.error u) mk_first_busy [] = .error .enumerationFailed) ∧
      (mk_first_busy "CamA" "usb-001" = .error .busy →
        get_available_cameras (.ok [("CamA", "usb-001"), ("CamB", "usb-002")])
            mk_first_busy [] =
          get_available_cameras (.ok [("CamB", "usb-002")]) mk_first_busy []) ∧
      (mk_first_busy "CamA" "usb-001" = .error .fault →
        get_available_cameras (.ok [("CamA", "usb-001"), ("CamB", "usb-002")])
            mk_first_busy [] =
          .error .deviceFault)) :=
  ⟨rfl, poll_error_isolation mk_first_busy "CamA" "usb-001" [("CamB", "usb-002")] [] rfl⟩

/-- Claim C9: DropboxDataStore.store_file is atomic with respect to the
staged local file: when the upload fails it raises DataSaveError and the
local filesystem is unchanged (the original file stays in place), and the
filesystem can only change — the original be removed — when
remove_original is true and the upload succeeded. -/
theorem dropbox_store_file_atomic (upload : Except Unit Unit) (remove_original : Bool)
    (fs : List String) (file : String) (hmem : file ∈ fs) :
    ((∃ u, upload = .error u) →
      dropbox_store_file upload remove_original fs file = (.error .dataSaveError, fs)) ∧
    ((dropbox_store_file upload remove_original fs file).2 ≠ fs →
      remove_original = true ∧ upload = .ok ()) := by
  rw [dropbox_store_file.eq_def, if_pos hmem]
  rcases upload with u | u
  · exact ⟨fun _ => rfl, fun hne => absurd rfl hne⟩
  · constructor
    · rintro ⟨u', hu⟩
      cases hu
    · intro hne
      rcases remove_original
      · exact absurd rfl hne
      · exact ⟨rfl, rfl⟩

theorem dropbox_store_file_atomic_witness :
    ("pic0001.jpg" ∈ ["pic0001.jpg"]) ∧
    dropbox_store_file (.error ()) true ["pic0001.jpg"] "pic0001.jpg" =
      (.error .dataSaveError, ["pic0001.jpg"]) :=
  ⟨by simp,
    (dropbox_store_file_atomic (.error ()) true ["pic0001.jpg"] "pic0001.jpg"
      (by simp)).1 ⟨(), rfl⟩⟩

end Timelapser
